import Mathlib

/-!
Verification of the PPT_MAKER backend pipeline (src/backend).

Shallow embedding of:
  * html_parser.truncate_content              (html_parser.py, lines 85-106)
  * celery_app.count_numbered_points          (celery_app.py, lines 100-105)
  * celery_app.fix_duplicate_queries          (celery_app.py, lines 78-98)
  * celery_app.generate_pptx_workflow         (celery_app.py, lines 123-206)
  * pptx_generator.generate_pptx              (pptx_generator.py, lines 180-193)
  * main.cancel_task / main.download_pptx     (main.py, lines 116-150)

Strings are modelled as Lean `String`/`List Char`; the external collaborators
(Groq structurer, Runware image generation, HTTP download, Redis/Celery) are
modelled as explicit oracle parameters, so the orchestrator's own control flow
is embedded faithfully while the environment stays arbitrary.
-/

/-! ## Character classes

Python's `re` classes `\s` and `\d`, restricted to ASCII (all inputs
considered in the theorems below are ASCII). -/

def pythonIsSpace (c : Char) : Bool :=
  c == ' ' || c == '\t' || c == '\n' || c == '\r' || c == '\x0b' || c == '\x0c'

def pythonIsDigit (c : Char) : Bool :=
  '0' ≤ c && c ≤ '9'

/-! ## count_numbered_points (celery_app.py lines 100-105)

`re.findall(r'^\s*\d+[\.\)]\s+', text, re.MULTILINE)` and the count of its
matches.  The pattern has no backtracking ambiguity: the classes `\s`, `\d`
and the literal `[.)]` are pairwise disjoint, so each greedy sub-match is
forced.  `tryMatch` attempts the pattern (without the `^` anchor) at the head
of the suffix `s` and returns the last character consumed (needed to decide
whether the resume position is at a line start, i.e. right after a `'\n'`)
together with the remaining suffix. -/

def tryMatch (s : List Char) : Option (Char × List Char) :=
  let s1 := s.dropWhile pythonIsSpace
  if (s1.takeWhile pythonIsDigit).isEmpty then none
  else
    match s1.dropWhile pythonIsDigit with
    | [] => none
    | c :: rest =>
      if c == '.' || c == ')' then
        match rest.takeWhile pythonIsSpace with
        | [] => none
        | w :: ws => some ((w :: ws).getLast (List.cons_ne_nil w ws),
                           rest.dropWhile pythonIsSpace)
      else none

/-- Scanner for `re.findall` with the multiline `^` anchor: a match may only
start at position 0 or right after a newline (`anchor`), and scanning resumes
after each (non-overlapping) match.  The `fuel` argument only serves to make
the recursion structural: every step consumes at least one character of the
text while spending exactly one unit of fuel, so starting with
`fuel = text.length` the fuel is never exhausted before the text is. -/
def countAux : Nat → List Char → Bool → Nat
  | 0, _, _ => 0
  | _, [], _ => 0
  | fuel + 1, c :: rest, anchor =>
    if anchor then
      match tryMatch (c :: rest) with
      | some (lastCh, rem) => 1 + countAux fuel rem (lastCh == '\n')
      | none => countAux fuel rest (c == '\n')
    else countAux fuel rest (c == '\n')

def count_numbered_points (s : String) : Nat :=
  countAux s.data.length s.data true

/-! ## truncate_content (html_parser.py lines 85-106) -/

/-- Python `str.rfind c`: index of the last occurrence of `c`, `none` for -1. -/
def rfind (l : List Char) (c : Char) : Option Nat :=
  match l.reverse.findIdx? (· == c) with
  | none => none
  | some j => some (l.length - 1 - j)

def truncateChars (content : List Char) (max_length : Nat) : List Char :=
  if content.length ≤ max_length then content
  else
    let truncated := content.take max_length
    match rfind truncated ' ' with
    | some i =>
      if 0 < i then truncated.take i ++ ['.', '.', '.']
      else truncated ++ ['.', '.', '.']
    | none => truncated ++ ['.', '.', '.']

def truncate_content (s : String) (max_length : Nat) : String :=
  ⟨truncateChars s.data max_length⟩

/-- config.MAX_HTML_LENGTH (config.py line 21). -/
def MAX_HTML_LENGTH : Nat := 20000

/-- The slide-count target handed to the structurer
(celery_app.py lines 126-132): the cleaned text's numbered-point count
overrides the caller's `max_slides` hint whenever it is positive. -/
def structuringTarget (raw_text : String) (max_slides : Nat) : Nat :=
  let clean_text := truncate_content raw_text MAX_HTML_LENGTH
  let detected_points := count_numbered_points clean_text
  if 0 < detected_points then detected_points else max_slides

/-- Stated from the claim's words, for comparison with the code's
`count_numbered_points`: the number of input lines that consist of a leading
number followed by `'.'` or `')'` (no further requirement). -/
def claimEnumLine (l : List Char) : Bool :=
  let digits := l.takeWhile pythonIsDigit
  !digits.isEmpty &&
    (match l.dropWhile pythonIsDigit with
     | c :: _ => c == '.' || c == ')'
     | [] => false)

def splitLinesAux : List Char → List Char → List (List Char)
  | [], cur => [cur.reverse]
  | c :: rest, cur =>
    if c == '\n' then cur.reverse :: splitLinesAux rest []
    else splitLinesAux rest (c :: cur)

def claim_enumerated_points (s : String) : Nat :=
  (splitLinesAux s.data []).countP claimEnumLine

/-! ## SlideRecord data model

A slide record as produced by the structurer and validated by
`GroqClient._validate_slides_structure` (groq_client.py lines 175-215), which
guarantees the `title` and `visual_query` fields are present (`visual_query`
defaults to the title) and fills the remaining defaults. -/

structure Slide where
  title : String
  bullet_points : List String
  visual_query : String
  accent_color : String
deriving DecidableEq

structure SlidesData where
  slides : List Slide
  suggested_bg_color : String
deriving DecidableEq

/-- The fixed fallback list of `fix_duplicate_queries`
(celery_app.py lines 81-91). -/
def fallbacks : List String :=
  ["geometric compass drawing circles", "vintage abacus with wooden beads",
   "neon mathematical symbols glowing", "graph paper with equations",
   "scientific calculator closeup", "protractor measuring angles",
   "chalkboard with colorful formulas", "digital LED number display",
   "ruler and pencil on engineering drawing", "mathematical textbook open",
   "student solving problem on tablet", "3D geometric shapes floating",
   "Fibonacci spiral in nature", "binary code matrix", "ancient counting stones",
   "math teacher at whiteboard", "trigonometry triangle diagram",
   "algebra symbols on paper", "statistics graph chart", "geometry set tools"]

/-! ## fix_duplicate_queries (celery_app.py lines 78-98)

The Python pass mutates the slide dicts in place while threading the `seen`
set and the fallback cursor `fb_idx`; here the state is passed explicitly and
the rewritten list is returned.  On a replacement the code re-reads the slide
(`seen.add(slide.get('visual_query', ''))` after the assignment), so the
*fallback* string is the value recorded as seen. -/

def fixDupAux : List Slide → List String → Nat → List Slide
  | [], _, _ => []
  | s :: rest, seen, fb_idx =>
    if s.visual_query ∈ seen then
      let q := fallbacks.getD (fb_idx % fallbacks.length) ""
      { s with visual_query := q } :: fixDupAux rest (q :: seen) (fb_idx + 1)
    else
      s :: fixDupAux rest (s.visual_query :: seen) fb_idx

def fix_duplicate_queries (slides : List Slide) : List Slide :=
  fixDupAux slides [] 0

/-- The number of replacements the pass performs (the final value of
`fb_idx`), threaded through the same recursion. -/
def fixDupRepsAux : List Slide → List String → Nat → Nat
  | [], _, _ => 0
  | s :: rest, seen, fb_idx =>
    if s.visual_query ∈ seen then
      let q := fallbacks.getD (fb_idx % fallbacks.length) ""
      1 + fixDupRepsAux rest (q :: seen) (fb_idx + 1)
    else
      fixDupRepsAux rest (s.visual_query :: seen) fb_idx

def replacementsNeeded (slides : List Slide) : Nat :=
  fixDupRepsAux slides [] 0

/-! ## Redis cancellation-signal store (main.py / celery_app.py)

`cancel_task` (main.py lines 116-129) runs
`redis_client.setex(f"cancel_{task_id}", 3600, "1")`; the value (`"1"`) and
requested TTL (3600 s, enforced by the store's own retention, outside this
model) are constants, so the store is abstracted to the set of present keys.
`is_task_cancelled` (celery_app.py lines 109-116) reads the key with
`redis_client.exists` (its second disjunct, the Celery `REVOKED` status, is
external state folded into the poll oracles of the workflow model below). -/

def cancelKey (task_id : String) : String := "cancel_" ++ task_id

structure RedisStore where
  keys : List String
deriving DecidableEq

def cancel_task (st : RedisStore) (task_id : String) : RedisStore :=
  ⟨st.keys.insert (cancelKey task_id)⟩

def task_cancelled (st : RedisStore) (task_id : String) : Bool :=
  cancelKey task_id ∈ st.keys

/-- The system's operations, as far as the signal store is concerned: the
cancel endpoint is the only code in the repository that writes to the store;
submission, status polling, the workflow's cancellation polls and the download
endpoint only read it. -/
inductive SysOp
  | cancel (task_id : String)
  | submit (raw_text : String) (max_slides : Nat)
  | pollCancelled (task_id : String)
  | status (task_id : String)
  | download (task_id : String)

def applyOp (st : RedisStore) : SysOp → RedisStore
  | .cancel task_id => cancel_task st task_id
  | .submit _ _ => st
  | .pollCancelled _ => st
  | .status _ => st
  | .download _ => st

/-! ## generate_pptx (pptx_generator.py lines 180-193)

Only the slide sequence of the rendered deck is modelled (geometry and
colors do not affect which slides appear, or their order).  The Python loop
pairs slide `i` with `slide_images[i] if slide_images and i < len(slide_images)
else None`. -/

def deckSlides : List Slide → List (Option String) → Nat → List (Slide × Option String)
  | [], _, _ => []
  | s :: rest, slide_images, i =>
    (s, (slide_images[i]?).getD none) :: deckSlides rest slide_images (i + 1)

def generate_pptx (slides_data : SlidesData) (slide_images : List (Option String)) :
    List (Slide × Option String) :=
  deckSlides slides_data.slides slide_images 0

/-! ## generate_pptx_workflow (celery_app.py lines 123-206)

Oracles for the environment:
  * `cancelled k` — what the `k`-th evaluated `is_task_cancelled` poll
    observes (Redis flag or Celery revocation), numbered in evaluation order;
  * `structurer clean ms` — `GroqClient.structure_content_to_slides`, either
    slide data or an exception (which the top-level handler turns into the
    Celery FAILURE state);
  * `gen i` — `generate_image_runware_async` for slide `i`: `some url`, or
    `none` for "no URL" (missing key, empty result, or any exception, all of
    which that function itself absorbs, celery_app.py lines 52-76);
  * `dl i` — the download/decode/save block for slide `i` (celery_app.py
    lines 174-186): `some path` on HTTP 200 and successful decode+write,
    `none` on a non-200 status or any exception (absorbed by the inner
    try/except);
  * `filename` — the freshly generated unique output name. -/

/-- `slide_img_path` for slide `i`: the download block only runs when
generation returned a URL. -/
def resolveSlide (gen dl : Nat → Option String) (i : Nat) : Option String :=
  match gen i with
  | some _ => dl i
  | none => none

inductive TaskOutcome
  | success
  | cancelled
  | failure
deriving DecidableEq

structure RunResult where
  outcome : TaskOutcome
  /-- `slide_images` as passed to the renderer (success path only). -/
  images : List (Option String)
  /-- the rendered deck's slide sequence (success path only). -/
  deck : List (Slide × Option String)
  /-- files written to OUTPUT_DIR by this run. -/
  files : List String
  /-- number of `is_task_cancelled` polls evaluated. -/
  polls : Nat
deriving DecidableEq

/-- The per-slide loop (celery_app.py lines 147-190): at slide `i` with next
poll index `p`, polls happen at the top of the loop body, before the Runware
call, and after it; any observed signal returns the CANCELLED outcome
(`none`), otherwise the slide's resolved image is appended and the loop
continues.  Returns the final `slide_images` (or `none` for cancellation)
and the total number of polls evaluated. -/
def visualLoop (cancelled : Nat → Bool) (gen dl : Nat → Option String) :
    List Slide → Nat → Nat → List (Option String) →
    Option (List (Option String)) × Nat
  | [], _, p, acc => (some acc, p)
  | _ :: rest, i, p, acc =>
    if cancelled p then (none, p + 1)
    else if cancelled (p + 1) then (none, p + 2)
    else if cancelled (p + 2) then (none, p + 3)
    else visualLoop cancelled gen dl rest (i + 1) (p + 3)
           (acc ++ [resolveSlide gen dl i])

def generate_pptx_workflow (cancelled : Nat → Bool)
    (structurer : String → Nat → Except String SlidesData)
    (gen dl : Nat → Option String) (filename : String)
    (raw_text : String) (max_slides : Nat) : RunResult :=
  let clean_text := truncate_content raw_text MAX_HTML_LENGTH
  let ms := structuringTarget raw_text max_slides
  if cancelled 0 then ⟨.cancelled, [], [], [], 1⟩
  else
    match structurer clean_text ms with
    | .error _ => ⟨.failure, [], [], [], 1⟩
    | .ok slides_data =>
      if cancelled 1 then ⟨.cancelled, [], [], [], 2⟩
      else
        let fixed : SlidesData :=
          { slides_data with slides := fix_duplicate_queries slides_data.slides }
        match visualLoop cancelled gen dl fixed.slides 0 2 [] with
        | (none, p) => ⟨.cancelled, [], [], [], p⟩
        | (some slide_images, p) =>
          ⟨.success, slide_images, generate_pptx fixed slide_images,
           [filename], p⟩

/-! ## download_pptx (main.py lines 131-150) -/

inductive DownloadResult
  | file (path : String) (filename : String)
  | httpError (code : Nat) (detail : String)
deriving DecidableEq

def download_pptx (task_status : String) (filename output_path : String)
    (fileExists : Bool) : DownloadResult :=
  if task_status = "SUCCESS" then
    if fileExists then .file output_path filename
    else .httpError 404 "File not found on server."
  else .httpError 400 ("Task is not finished. Status: " ++ task_status)

/-! ## Helper lemmas -/

theorem truncate_content_of_le {s : String} {n : Nat} (h : s.length ≤ n) :
    truncate_content s n = s := by
  cases s with
  | mk l =>
    show (⟨truncateChars l n⟩ : String) = ⟨l⟩
    have h' : l.length ≤ n := h
    unfold truncateChars
    rw [if_pos h']

theorem fallbacks_nodup : fallbacks.Nodup := by decide

theorem fallbacks_length : fallbacks.length = 20 := by decide

/-! ## C10 — truncate_content -/

/-- Claim C10 (corrected): the claim states the truncated output never
exceeds `max_length`; in the code, when truncation happens, the `"..."`
suffix is appended *after* cutting at the budget, so the result can be up to
`max_length + 3` characters long.  This theorem proves the amended claim:
content within the budget is returned unchanged, and otherwise the result's
length is at most `max_length + 3`. -/
theorem truncate_content_budget (s : String) (max_length : Nat)
    (_hpos : 0 < max_length) :
    (s.length ≤ max_length → truncate_content s max_length = s) ∧
    (max_length < s.length →
      (truncate_content s max_length).length ≤ max_length + 3) := by
  constructor
  · exact fun h => truncate_content_of_le h
  · intro h
    cases s with
    | mk l =>
      have h' : ¬ l.length ≤ max_length := by
        simpa [String.length] using Nat.not_le.mpr h
      show (truncateChars l max_length).length ≤ max_length + 3
      unfold truncateChars
      rw [if_neg h']
      cases hr : rfind (l.take max_length) ' ' with
      | none =>
        simp only [hr, List.length_append, List.length_take, List.length_cons,
          List.length_nil]
        omega
      | some i =>
        by_cases hi : 0 < i <;>
          simp only [hr, hi, if_true, if_false, List.length_append,
            List.length_take, List.length_cons, List.length_nil, reduceIte] <;>
          omega

/-- Counterexample to claim C10 as stated: `"abcde"` truncated to budget 4
yields `"abcd..."`, which has 7 > 4 characters. -/
theorem truncate_content_counterexample :
    truncate_content "abcde" 4 = "abcd..." ∧
    ¬ (truncate_content "abcde" 4).length ≤ 4 := by decide

/-- Witness for `truncate_content_budget` at concrete inputs. -/
theorem truncate_content_budget_witness :
    (0 < 5 ∧ truncate_content "hi" 5 = "hi") ∧
    (truncate_content "hello world this" 5).length ≤ 5 + 3 :=
  ⟨⟨by decide, (truncate_content_budget "hi" 5 (by decide)).1 (by decide)⟩,
    (truncate_content_budget "hello world this" 5 (by decide)).2 (by decide)⟩

/-! ## C2 — numbered-point override -/

/-- Claim C2 (corrected): the detection pattern `^\s*\d+[\.\)]\s+` requires at
least one whitespace character after the `'.'`/`')'`, so a line such as
`"1.Paris"` is not counted, contrary to the claim's reading of an enumerated
point; and detection runs on the truncated text.  Amended claim, proved here:
for every input within the 20000-character truncation budget whose count of
detected numbered points is `N ≥ 1`, the structuring target is exactly `N`,
whatever the caller's `max_slides` hint. -/
theorem numbered_points_override (raw_text : String) (max_slides : Nat)
    (hlen : raw_text.length ≤ MAX_HTML_LENGTH)
    (hpos : 1 ≤ count_numbered_points raw_text) :
    structuringTarget raw_text max_slides = count_numbered_points raw_text := by
  unfold structuringTarget
  rw [truncate_content_of_le hlen]
  simp only [if_pos (by omega : 0 < count_numbered_points raw_text)]

/-- Counterexample to claim C2 as stated: `"1.Paris\n2.Tokyo"` has two lines
each consisting of a leading number followed by `'.'` (the claim's notion of
an enumerated point), yet with hint 5 the structuring target stays 5, because
the code's regex also demands a whitespace character after the dot. -/
theorem numbered_points_override_counterexample :
    claim_enumerated_points "1.Paris\n2.Tokyo" = 2 ∧
    structuringTarget "1.Paris\n2.Tokyo" 5 = 5 ∧
    structuringTarget "1.Paris\n2.Tokyo" 5 ≠
      claim_enumerated_points "1.Paris\n2.Tokyo" := by decide

/-- Witness for `numbered_points_override`: the spec's own scenario, input
`"1. Paris\n2. Tokyo"` with hint 5, yields target 2. -/
theorem numbered_points_override_witness :
    structuringTarget "1. Paris\n2. Tokyo" 5 = 2 :=
  (numbered_points_override "1. Paris\n2. Tokyo" 5 (by decide)
      (by decide)).trans (by decide)

/-! ## C8 — download endpoint gate -/

/-- Claim C8 (confirmed): with the task in SUCCESS state and the output file
present, the download endpoint returns the file; in any other state it
returns the 400 "not finished" error whose detail names the task's current
status, and no file bytes. -/
theorem download_gate (task_status filename output_path : String)
    (fileExists : Bool) :
    (task_status = "SUCCESS" → fileExists = true →
      download_pptx task_status filename output_path fileExists =
        .file output_path filename) ∧
    (task_status ≠ "SUCCESS" →
      download_pptx task_status filename output_path fileExists =
        .httpError 400 ("Task is not finished. Status: " ++ task_status)) := by
  constructor
  · intro h1 h2
    simp [download_pptx, h1, h2]
  · intro h1
    simp [download_pptx, h1]

/-- Witness for `download_gate` at concrete inputs, including the spec's
scenario of a download attempted while the task is still running. -/
theorem download_gate_witness :
    download_pptx "SUCCESS" "p.pptx" "out/p.pptx" true =
      .file "out/p.pptx" "p.pptx" ∧
    download_pptx "PROGRESS" "p.pptx" "out/p.pptx" true =
      .httpError 400 ("Task is not finished. Status: " ++ "PROGRESS") :=
  ⟨(download_gate "SUCCESS" "p.pptx" "out/p.pptx" true).1 rfl rfl,
   (download_gate "PROGRESS" "p.pptx" "out/p.pptx" true).2 (by decide)⟩

/-! ## C3 / C9 — cancellation signal store -/

/-- Claim C3 (confirmed): no operation of the system ever removes a
cancellation key from the signal store — the cancel endpoint only inserts,
every other operation only reads.  Hence once `cancel_<id>` is set, it stays
set across any sequence of system operations (the key's one-hour TTL is
enforced by the backing store's own retention policy, which is outside the
system and outside this model). -/
theorem cancel_signal_monotonic (ops : List SysOp) (st : RedisStore)
    (task_id : String) (h : task_cancelled st task_id = true) :
    task_cancelled (ops.foldl applyOp st) task_id = true := by
  induction ops generalizing st with
  | nil => exact h
  | cons op rest ih =>
    apply ih
    cases op with
    | cancel id2 =>
      simp only [task_cancelled, applyOp, cancel_task, decide_eq_true_eq] at h ⊢
      exact List.mem_insert_of_mem h
    | submit raw ms => exact h
    | pollCancelled id2 => exact h
    | status id2 => exact h
    | download id2 => exact h

/-- Witness for `cancel_signal_monotonic`: a concrete trace with polls, a
cancel of another job and a status read after the signal was set. -/
theorem cancel_signal_monotonic_witness :
    task_cancelled
      (List.foldl applyOp (cancel_task ⟨[]⟩ "job1")
        [SysOp.pollCancelled "job1", SysOp.cancel "job2", SysOp.status "job1",
         SysOp.download "job1"]) "job1" = true :=
  cancel_signal_monotonic _ _ _ (by decide)

/-- Claim C9 (confirmed): cancelling the same job twice leaves the signal
store in exactly the state one cancel produces (the written value `"1"` and
the requested TTL are constants, so the store state is its set of keys). -/
theorem cancel_idempotent (st : RedisStore) (task_id : String) :
    cancel_task (cancel_task st task_id) task_id = cancel_task st task_id := by
  unfold cancel_task
  have h : cancelKey task_id ∈ st.keys.insert (cancelKey task_id) :=
    List.mem_insert_self _ _
  simp [List.insert_of_mem h]

/-! ## Workflow loop lemmas -/

theorem visualLoop_some_polls_false (cancelled : Nat → Bool)
    (gen dl : Nat → Option String) :
    ∀ (slides : List Slide) (i p : Nat) (acc imgs : List (Option String))
      (p' : Nat),
      visualLoop cancelled gen dl slides i p acc = (some imgs, p') →
      ∀ k, p ≤ k → k < p' → cancelled k = false := by
  intro slides
  induction slides with
  | nil =>
    intro i p acc imgs p' heq k hk1 hk2
    simp only [visualLoop, Prod.mk.injEq] at heq
    omega
  | cons s rest ih =>
    intro i p acc imgs p' heq k hk1 hk2
    by_cases h1 : cancelled p = true
    · simp [visualLoop, h1] at heq
    · have h1' : cancelled p = false := by simpa using h1
      by_cases h2 : cancelled (p + 1) = true
      · simp [visualLoop, h1', h2] at heq
      · have h2' : cancelled (p + 1) = false := by simpa using h2
        by_cases h3 : cancelled (p + 2) = true
        · simp [visualLoop, h1', h2', h3] at heq
        · have h3' : cancelled (p + 2) = false := by simpa using h3
          simp only [visualLoop, h1', h2', h3', Bool.false_eq_true, if_false]
            at heq
          rcases Nat.lt_or_ge k (p + 3) with hk3 | hk3
          · have : k = p ∨ k = p + 1 ∨ k = p + 2 := by omega
            rcases this with rfl | rfl | rfl <;> assumption
          · exact ih (i + 1) (p + 3) (acc ++ [resolveSlide gen dl i])
              imgs p' heq k hk3 hk2

theorem visualLoop_some_length (cancelled : Nat → Bool)
    (gen dl : Nat → Option String) :
    ∀ (slides : List Slide) (i p : Nat) (acc imgs : List (Option String))
      (p' : Nat),
      visualLoop cancelled gen dl slides i p acc = (some imgs, p') →
      imgs.length = acc.length + slides.length := by
  intro slides
  induction slides with
  | nil =>
    intro i p acc imgs p' heq
    simp only [visualLoop, Prod.mk.injEq] at heq
    have h : acc = imgs := Option.some.inj heq.1
    simp [← h]
  | cons s rest ih =>
    intro i p acc imgs p' heq
    by_cases h1 : cancelled p = true
    · simp [visualLoop, h1] at heq
    · have h1' : cancelled p = false := by simpa using h1
      by_cases h2 : cancelled (p + 1) = true
      · simp [visualLoop, h1', h2] at heq
      · have h2' : cancelled (p + 1) = false := by simpa using h2
        by_cases h3 : cancelled (p + 2) = true
        · simp [visualLoop, h1', h2', h3] at heq
        · have h3' : cancelled (p + 2) = false := by simpa using h3
          simp only [visualLoop, h1', h2', h3', Bool.false_eq_true, if_false]
            at heq
          have := ih (i + 1) (p + 3) (acc ++ [resolveSlide gen dl i])
            imgs p' heq
          simp only [List.length_append, List.length_cons, List.length_nil]
            at this ⊢
          omega

theorem visualLoop_no_cancel (cancelled : Nat → Bool)
    (gen dl : Nat → Option String) (hq : ∀ k, cancelled k = false) :
    ∀ (slides : List Slide) (i p : Nat) (acc : List (Option String)),
      visualLoop cancelled gen dl slides i p acc =
        (some (acc ++ (List.range slides.length).map
            fun j => resolveSlide gen dl (i + j)),
         p + 3 * slides.length) := by
  intro slides
  induction slides with
  | nil => intro i p acc; simp [visualLoop]
  | cons s rest ih =>
    intro i p acc
    simp only [visualLoop, hq p, hq (p + 1), hq (p + 2), Bool.false_eq_true,
      if_false]
    rw [ih (i + 1) (p + 3) (acc ++ [resolveSlide gen dl i])]
    refine Prod.ext ?_ ?_
    · simp only [List.length_cons, List.range_succ_eq_map, List.map_cons,
        List.map_map, List.append_assoc, List.cons_append, List.nil_append,
        Nat.add_zero]
      refine congrArg some ?_
      refine congrArg (fun t => acc ++ (resolveSlide gen dl i :: t)) ?_
      refine List.map_congr_left ?_
      intro j _
      simp only [Function.comp_apply]
      refine congrArg (resolveSlide gen dl) (by omega)
    · simp only [List.length_cons]
      omega

theorem deckSlides_map_fst (slide_images : List (Option String)) :
    ∀ (slides : List Slide) (i : Nat),
      (deckSlides slides slide_images i).map Prod.fst = slides := by
  intro slides
  induction slides with
  | nil => intro i; simp [deckSlides]
  | cons s rest ih => intro i; simp [deckSlides, ih (i + 1)]

theorem fixDupAux_length :
    ∀ (l : List Slide) (seen : List String) (fb_idx : Nat),
      (fixDupAux l seen fb_idx).length = l.length := by
  intro l
  induction l with
  | nil => intro seen fb_idx; simp [fixDupAux]
  | cons s rest ih =>
    intro seen fb_idx
    by_cases h : s.visual_query ∈ seen <;> simp [fixDupAux, h, ih]

theorem fixDupAux_map_title :
    ∀ (l : List Slide) (seen : List String) (fb_idx : Nat),
      (fixDupAux l seen fb_idx).map Slide.title = l.map Slide.title := by
  intro l
  induction l with
  | nil => intro seen fb_idx; simp [fixDupAux]
  | cons s rest ih =>
    intro seen fb_idx
    by_cases h : s.visual_query ∈ seen <;> simp [fixDupAux, h, ih]

/-! ## C4 — cancel before Running starts -/

/-- Claim C4 (confirmed): if the cancellation signal is set before the
workflow starts and stays observable (every poll sees it), the run returns
the Cancelled outcome at the very first poll point — after exactly one poll —
and in particular never produces the Success outcome. -/
theorem cancel_before_running (cancelled : Nat → Bool)
    (structurer : String → Nat → Except String SlidesData)
    (gen dl : Nat → Option String) (filename raw_text : String)
    (max_slides : Nat) (h : ∀ k, cancelled k = true) :
    (generate_pptx_workflow cancelled structurer gen dl filename
        raw_text max_slides).outcome = .cancelled ∧
    (generate_pptx_workflow cancelled structurer gen dl filename
        raw_text max_slides).polls = 1 ∧
    (generate_pptx_workflow cancelled structurer gen dl filename
        raw_text max_slides).outcome ≠ .success := by
  unfold generate_pptx_workflow
  simp [h 0]

/-- Witness for `cancel_before_running` on a concrete environment. -/
theorem cancel_before_running_witness :
    (generate_pptx_workflow (fun _ => true)
        (fun _ _ => .ok ⟨[⟨"Paris", [], "eiffel tower", "FDE047"⟩], "#0F172A"⟩)
        (fun _ => none) (fun _ => none) "presentation_0a1b2c3d.pptx"
        "1. Paris" 5).outcome = .cancelled :=
  (cancel_before_running (fun _ => true)
      (fun _ _ => .ok ⟨[⟨"Paris", [], "eiffel tower", "FDE047"⟩], "#0F172A"⟩)
      (fun _ => none) (fun _ => none) "presentation_0a1b2c3d.pptx"
      "1. Paris" 5 (fun _ => rfl)).1

/-! ## C5 — cancellation observed during the visual loop -/

/-- Claim C5 (confirmed): if any cancellation poll the run actually evaluates
(`k < polls`, polls numbered in evaluation order — in particular one of the
per-slide loop polls, e.g. while resolving slide 2 of 5) observes the signal
set, the run finishes with the Cancelled outcome and writes no deck file to
the output directory. -/
theorem cancel_during_loop_no_deck (cancelled : Nat → Bool)
    (structurer : String → Nat → Except String SlidesData)
    (gen dl : Nat → Option String) (filename raw_text : String)
    (max_slides : Nat)
    (h : ∃ k, k < (generate_pptx_workflow cancelled structurer gen dl filename
          raw_text max_slides).polls ∧ cancelled k = true) :
    (generate_pptx_workflow cancelled structurer gen dl filename
        raw_text max_slides).outcome = .cancelled ∧
    (generate_pptx_workflow cancelled structurer gen dl filename
        raw_text max_slides).files = [] := by
  by_cases h0 : cancelled 0 = true
  · constructor <;> simp [generate_pptx_workflow, h0]
  · have h0' : cancelled 0 = false := by simpa using h0
    cases hst : structurer (truncate_content raw_text MAX_HTML_LENGTH)
        (structuringTarget raw_text max_slides) with
    | error e =>
      exfalso
      obtain ⟨k, hk, hkt⟩ := h
      simp only [generate_pptx_workflow, h0', Bool.false_eq_true, if_false,
        hst] at hk
      have : k = 0 := by omega
      subst this
      rw [h0'] at hkt
      exact Bool.false_ne_true hkt
    | ok sd =>
      by_cases h1 : cancelled 1 = true
      · constructor <;> simp [generate_pptx_workflow, h0', hst, h1]
      · have h1' : cancelled 1 = false := by simpa using h1
        rcases hloop : visualLoop cancelled gen dl
            (fix_duplicate_queries sd.slides) 0 2 [] with ⟨r, p'⟩
        cases r with
        | none =>
          constructor <;>
            simp [generate_pptx_workflow, h0', hst, h1', hloop]
        | some imgs =>
          exfalso
          obtain ⟨k, hk, hkt⟩ := h
          simp only [generate_pptx_workflow, h0', h1', Bool.false_eq_true,
            if_false, hst, hloop] at hk
          rcases Nat.lt_or_ge k 2 with hk2 | hk2
          · have : k = 0 ∨ k = 1 := by omega
            rcases this with rfl | rfl
            · rw [h0'] at hkt; exact Bool.false_ne_true hkt
            · rw [h1'] at hkt; exact Bool.false_ne_true hkt
          · have hfalse := visualLoop_some_polls_false cancelled gen dl
              (fix_duplicate_queries sd.slides) 0 2 [] imgs p' hloop k hk2 hk
            rw [hfalse] at hkt
            exact Bool.false_ne_true hkt

/-- Witness for `cancel_during_loop_no_deck`: five slides, signal observed
first by the loop-top poll of slide 2 (poll index 5); the run cancels after
six polls and writes nothing. -/
theorem cancel_during_loop_no_deck_witness :
    (∃ k, k < (generate_pptx_workflow (fun k => decide (5 ≤ k))
        (fun _ _ => .ok ⟨[⟨"s1", [], "q1", "c"⟩, ⟨"s2", [], "q2", "c"⟩,
          ⟨"s3", [], "q3", "c"⟩, ⟨"s4", [], "q4", "c"⟩, ⟨"s5", [], "q5", "c"⟩],
          "#0F172A"⟩)
        (fun _ => some "url") (fun _ => some "img.png")
        "presentation_0a1b2c3d.pptx" "hello" 5).polls ∧
      (fun k => decide (5 ≤ k)) k = true) ∧
    (generate_pptx_workflow (fun k => decide (5 ≤ k))
        (fun _ _ => .ok ⟨[⟨"s1", [], "q1", "c"⟩, ⟨"s2", [], "q2", "c"⟩,
          ⟨"s3", [], "q3", "c"⟩, ⟨"s4", [], "q4", "c"⟩, ⟨"s5", [], "q5", "c"⟩],
          "#0F172A"⟩)
        (fun _ => some "url") (fun _ => some "img.png")
        "presentation_0a1b2c3d.pptx" "hello" 5).outcome = .cancelled ∧
    (generate_pptx_workflow (fun k => decide (5 ≤ k))
        (fun _ _ => .ok ⟨[⟨"s1", [], "q1", "c"⟩, ⟨"s2", [], "q2", "c"⟩,
          ⟨"s3", [], "q3", "c"⟩, ⟨"s4", [], "q4", "c"⟩, ⟨"s5", [], "q5", "c"⟩],
          "#0F172A"⟩)
        (fun _ => some "url") (fun _ => some "img.png")
        "presentation_0a1b2c3d.pptx" "hello" 5).files = [] :=
  ⟨⟨5, by decide⟩,
    cancel_during_loop_no_deck (fun k => decide (5 ≤ k))
      (fun _ _ => .ok ⟨[⟨"s1", [], "q1", "c"⟩, ⟨"s2", [], "q2", "c"⟩,
        ⟨"s3", [], "q3", "c"⟩, ⟨"s4", [], "q4", "c"⟩, ⟨"s5", [], "q5", "c"⟩],
        "#0F172A"⟩)
      (fun _ => some "url") (fun _ => some "img.png")
      "presentation_0a1b2c3d.pptx" "hello" 5 ⟨5, by decide⟩⟩

/-! ## C6 — per-slide visual failure absorbed -/

/-- Claim C6 (confirmed): with no cancellation and a structurer result, a
failure anywhere in slide `i`'s visual-resolution chain (`resolveSlide` is
`none`: no generated URL, or a failed download/decode/save — each absorbed by
the code's own guards and try/except blocks) leaves the run in the Success
outcome, with one image entry per slide of which the `i`-th is `none`. -/
theorem visual_failure_absorbed (cancelled : Nat → Bool)
    (structurer : String → Nat → Except String SlidesData)
    (gen dl : Nat → Option String) (filename raw_text : String)
    (max_slides : Nat) (sd : SlidesData) (i : Nat)
    (hq : ∀ k, cancelled k = false)
    (hok : structurer (truncate_content raw_text MAX_HTML_LENGTH)
        (structuringTarget raw_text max_slides) = .ok sd)
    (hi : i < (fix_duplicate_queries sd.slides).length)
    (hfail : resolveSlide gen dl i = none) :
    (generate_pptx_workflow cancelled structurer gen dl filename
        raw_text max_slides).outcome = .success ∧
    (generate_pptx_workflow cancelled structurer gen dl filename
        raw_text max_slides).images.length =
      (fix_duplicate_queries sd.slides).length ∧
    (generate_pptx_workflow cancelled structurer gen dl filename
        raw_text max_slides).images[i]? = some none := by
  have hloop := visualLoop_no_cancel cancelled gen dl hq
    (fix_duplicate_queries sd.slides) 0 2 []
  refine ⟨?_, ?_, ?_⟩
  · simp only [generate_pptx_workflow, hq 0, hq 1, Bool.false_eq_true,
      if_false, hok, hloop, List.nil_append]
  · simp only [generate_pptx_workflow, hq 0, hq 1, Bool.false_eq_true,
      if_false, hok, hloop, List.nil_append]
    rw [List.length_map, List.length_range]
  · simp only [generate_pptx_workflow, hq 0, hq 1, Bool.false_eq_true,
      if_false, hok, hloop, List.nil_append]
    rw [List.getElem?_map, List.getElem?_range hi, Option.map_some']
    rw [Nat.zero_add, hfail]

/-- Witness for `visual_failure_absorbed`: two slides, generation fails for
slide 1 (no URL); the job still succeeds and slide 1's entry is `none`. -/
theorem visual_failure_absorbed_witness :
    (1 < (fix_duplicate_queries
        [⟨"s1", [], "q1", "c"⟩, ⟨"s2", [], "q2", "c"⟩]).length ∧
      resolveSlide (fun _ => none) (fun _ => some "img.png") 1 = none) ∧
    (generate_pptx_workflow (fun _ => false)
        (fun _ _ => .ok ⟨[⟨"s1", [], "q1", "c"⟩, ⟨"s2", [], "q2", "c"⟩],
          "#0F172A"⟩)
        (fun _ => none) (fun _ => some "img.png")
        "presentation_0a1b2c3d.pptx" "hello" 9).outcome = .success ∧
    (generate_pptx_workflow (fun _ => false)
        (fun _ _ => .ok ⟨[⟨"s1", [], "q1", "c"⟩, ⟨"s2", [], "q2", "c"⟩],
          "#0F172A"⟩)
        (fun _ => none) (fun _ => some "img.png")
        "presentation_0a1b2c3d.pptx" "hello" 9).images[1]? = some none :=
  ⟨⟨by decide, by decide⟩,
    (visual_failure_absorbed (fun _ => false)
      (fun _ _ => .ok ⟨[⟨"s1", [], "q1", "c"⟩, ⟨"s2", [], "q2", "c"⟩],
        "#0F172A"⟩)
      (fun _ => none) (fun _ => some "img.png")
      "presentation_0a1b2c3d.pptx" "hello" 9
      ⟨[⟨"s1", [], "q1", "c"⟩, ⟨"s2", [], "q2", "c"⟩], "#0F172A"⟩ 1
      (fun _ => rfl) rfl (by decide) rfl).1,
    (visual_failure_absorbed (fun _ => false)
      (fun _ _ => .ok ⟨[⟨"s1", [], "q1", "c"⟩, ⟨"s2", [], "q2", "c"⟩],
        "#0F172A"⟩)
      (fun _ => none) (fun _ => some "img.png")
      "presentation_0a1b2c3d.pptx" "hello" 9
      ⟨[⟨"s1", [], "q1", "c"⟩, ⟨"s2", [], "q2", "c"⟩], "#0F172A"⟩ 1
      (fun _ => rfl) rfl (by decide) rfl).2.2⟩

/-! ## C7 — Success alignment of images and deck -/

/-- Claim C7 (confirmed): whenever the run reaches the Success outcome, the
`slide_images` list has exactly one (possibly absent) entry per slide record,
and the rendered deck consists of exactly the deduplicated slide records, one
rendered slide each, in the structurer's original order (deduplication keeps
length, order and titles, rewriting only `visual_query` values). -/
theorem success_deck_aligned (cancelled : Nat → Bool)
    (structurer : String → Nat → Except String SlidesData)
    (gen dl : Nat → Option String) (filename raw_text : String)
    (max_slides : Nat) (sd : SlidesData)
    (hok : structurer (truncate_content raw_text MAX_HTML_LENGTH)
        (structuringTarget raw_text max_slides) = .ok sd)
    (hs : (generate_pptx_workflow cancelled structurer gen dl filename
        raw_text max_slides).outcome = .success) :
    (generate_pptx_workflow cancelled structurer gen dl filename
        raw_text max_slides).images.length = sd.slides.length ∧
    (generate_pptx_workflow cancelled structurer gen dl filename
        raw_text max_slides).deck.map Prod.fst =
      fix_duplicate_queries sd.slides ∧
    (fix_duplicate_queries sd.slides).length = sd.slides.length ∧
    (fix_duplicate_queries sd.slides).map Slide.title =
      sd.slides.map Slide.title := by
  by_cases h0 : cancelled 0 = true
  · exfalso
    simp [generate_pptx_workflow, h0] at hs
  · have h0' : cancelled 0 = false := by simpa using h0
    by_cases h1 : cancelled 1 = true
    · exfalso
      simp [generate_pptx_workflow, h0', hok, h1] at hs
    · have h1' : cancelled 1 = false := by simpa using h1
      rcases hloop : visualLoop cancelled gen dl
          (fix_duplicate_queries sd.slides) 0 2 [] with ⟨r, p'⟩
      cases r with
      | none =>
        exfalso
        simp [generate_pptx_workflow, h0', hok, h1', hloop] at hs
      | some imgs =>
        have hlen := visualLoop_some_length cancelled gen dl
          (fix_duplicate_queries sd.slides) 0 2 [] imgs p' hloop
        refine ⟨?_, ?_, fixDupAux_length sd.slides [] 0,
          fixDupAux_map_title sd.slides [] 0⟩
        · simp only [generate_pptx_workflow, h0', h1', Bool.false_eq_true,
            if_false, hok, hloop]
          simpa [fixDupAux_length sd.slides [] 0, fix_duplicate_queries]
            using hlen
        · simp only [generate_pptx_workflow, h0', h1', Bool.false_eq_true,
            if_false, hok, hloop, generate_pptx]
          exact deckSlides_map_fst imgs (fix_duplicate_queries sd.slides) 0

/-- Witness for `success_deck_aligned` on a concrete successful run with two
slide records. -/
theorem success_deck_aligned_witness :
    (generate_pptx_workflow (fun _ => false)
        (fun _ _ => .ok ⟨[⟨"s1", ["b1"], "q1", "c1"⟩, ⟨"s2", [], "q2", "c2"⟩],
          "#0F172A"⟩)
        (fun _ => some "url") (fun _ => some "img.png")
        "presentation_0a1b2c3d.pptx" "hello" 9).images.length = 2 ∧
    (generate_pptx_workflow (fun _ => false)
        (fun _ _ => .ok ⟨[⟨"s1", ["b1"], "q1", "c1"⟩, ⟨"s2", [], "q2", "c2"⟩],
          "#0F172A"⟩)
        (fun _ => some "url") (fun _ => some "img.png")
        "presentation_0a1b2c3d.pptx" "hello" 9).deck.map Prod.fst =
      fix_duplicate_queries [⟨"s1", ["b1"], "q1", "c1"⟩,
        ⟨"s2", [], "q2", "c2"⟩] :=
  ⟨((success_deck_aligned (fun _ => false)
      (fun _ _ => .ok ⟨[⟨"s1", ["b1"], "q1", "c1"⟩, ⟨"s2", [], "q2", "c2"⟩],
        "#0F172A"⟩)
      (fun _ => some "url") (fun _ => some "img.png")
      "presentation_0a1b2c3d.pptx" "hello" 9
      ⟨[⟨"s1", ["b1"], "q1", "c1"⟩, ⟨"s2", [], "q2", "c2"⟩], "#0F172A"⟩
      rfl (by decide)).1).trans (by decide),
   (success_deck_aligned (fun _ => false)
      (fun _ _ => .ok ⟨[⟨"s1", ["b1"], "q1", "c1"⟩, ⟨"s2", [], "q2", "c2"⟩],
        "#0F172A"⟩)
      (fun _ => some "url") (fun _ => some "img.png")
      "presentation_0a1b2c3d.pptx" "hello" 9
      ⟨[⟨"s1", ["b1"], "q1", "c1"⟩, ⟨"s2", [], "q2", "c2"⟩], "#0F172A"⟩
      rfl (by decide)).2.1⟩

/-! ## C1 — deduplication of visual queries -/

theorem getD_mem_fallbacks {j : Nat} (h : j < fallbacks.length) :
    fallbacks.getD j "" ∈ fallbacks := by
  rw [List.getD_eq_getElem _ _ h]
  exact List.getElem_mem h

theorem getD_fallbacks_inj {i j : Nat} (hi : i < fallbacks.length)
    (hj : j < fallbacks.length)
    (h : fallbacks.getD i "" = fallbacks.getD j "") : i = j := by
  rw [List.getD_eq_getElem _ _ hi, List.getD_eq_getElem _ _ hj] at h
  exact (List.Nodup.getElem_inj_iff fallbacks_nodup).mp h

/-- Invariant of the deduplication pass: provided no remaining slide's query
is itself a fallback entry, no fallback entry with index at or past the
cursor is already in `seen`, and the run assigns fallback indices only below
the list's length, the emitted queries are pairwise distinct and none of them
lies in `seen`. -/
theorem fixDupAux_nodup_invariant :
    ∀ (l : List Slide) (seen : List String) (fb_idx : Nat),
      (∀ s ∈ l, s.visual_query ∉ fallbacks) →
      (∀ j, fb_idx ≤ j → j < fallbacks.length →
        fallbacks.getD j "" ∉ seen) →
      fb_idx + fixDupRepsAux l seen fb_idx ≤ fallbacks.length →
      ((fixDupAux l seen fb_idx).map Slide.visual_query).Nodup ∧
      ∀ x ∈ (fixDupAux l seen fb_idx).map Slide.visual_query, x ∉ seen := by
  intro l
  induction l with
  | nil =>
    intro seen fb_idx _ _ _
    constructor
    · simp [fixDupAux]
    · simp [fixDupAux]
  | cons s rest ih =>
    intro seen fb_idx hA hB hC
    by_cases hmem : s.visual_query ∈ seen
    · -- the query repeats: the next fallback entry is substituted
      have hreps : fixDupRepsAux (s :: rest) seen fb_idx =
          1 + fixDupRepsAux rest
            (fallbacks.getD (fb_idx % fallbacks.length) "" :: seen)
            (fb_idx + 1) := by
        simp [fixDupRepsAux, hmem]
      have hlt : fb_idx < fallbacks.length := by
        rw [hreps] at hC
        omega
      have hmod : fb_idx % fallbacks.length = fb_idx := Nat.mod_eq_of_lt hlt
      have hout : fixDupAux (s :: rest) seen fb_idx =
          { s with visual_query := fallbacks.getD fb_idx "" } ::
            fixDupAux rest (fallbacks.getD fb_idx "" :: seen) (fb_idx + 1) := by
        simp [fixDupAux, hmem, hmod]
      have hqnot : fallbacks.getD fb_idx "" ∉ seen := hB fb_idx le_rfl hlt
      have hB' : ∀ j, fb_idx + 1 ≤ j → j < fallbacks.length →
          fallbacks.getD j "" ∉ fallbacks.getD fb_idx "" :: seen := by
        intro j hj1 hj2
        simp only [List.mem_cons, not_or]
        refine ⟨fun he => ?_, hB j (by omega) hj2⟩
        have := getD_fallbacks_inj hj2 hlt he
        omega
      have hC' : fb_idx + 1 + fixDupRepsAux rest
          (fallbacks.getD fb_idx "" :: seen) (fb_idx + 1) ≤
          fallbacks.length := by
        rw [hreps, hmod] at hC
        omega
      obtain ⟨ihn, ihf⟩ := ih (fallbacks.getD fb_idx "" :: seen) (fb_idx + 1)
        (fun t ht => hA t (List.mem_cons_of_mem s ht)) hB' hC'
      rw [hout]
      simp only [List.map_cons, List.nodup_cons, List.mem_cons]
      refine ⟨⟨fun hq => ?_, ihn⟩, ?_⟩
      · exact ihf _ hq (List.mem_cons_self _ _)
      · rintro x (rfl | hx)
        · exact hqnot
        · exact fun hxs => ihf x hx (List.mem_cons_of_mem _ hxs)
    · -- first occurrence: the query is kept and recorded as seen
      have hout : fixDupAux (s :: rest) seen fb_idx =
          s :: fixDupAux rest (s.visual_query :: seen) fb_idx := by
        simp [fixDupAux, hmem]
      have hB' : ∀ j, fb_idx ≤ j → j < fallbacks.length →
          fallbacks.getD j "" ∉ s.visual_query :: seen := by
        intro j hj1 hj2
        simp only [List.mem_cons, not_or]
        refine ⟨fun he => ?_, hB j hj1 hj2⟩
        exact hA s (List.mem_cons_self s rest) (he ▸ getD_mem_fallbacks hj2)
      have hC' : fb_idx + fixDupRepsAux rest (s.visual_query :: seen) fb_idx ≤
          fallbacks.length := by
        have hreps : fixDupRepsAux (s :: rest) seen fb_idx =
            fixDupRepsAux rest (s.visual_query :: seen) fb_idx := by
          simp [fixDupRepsAux, hmem]
        rw [hreps] at hC
        exact hC
      obtain ⟨ihn, ihf⟩ := ih (s.visual_query :: seen) fb_idx
        (fun t ht => hA t (List.mem_cons_of_mem s ht)) hB' hC'
      rw [hout]
      simp only [List.map_cons, List.nodup_cons, List.mem_cons]
      refine ⟨⟨fun hq => ?_, ihn⟩, ?_⟩
      · exact ihf _ hq (List.mem_cons_self _ _)
      · rintro x (rfl | hx)
        · exact hmem
        · exact fun hxs => ihf x hx (List.mem_cons_of_mem _ hxs)

/-- Claim C1 (corrected): as stated the claim fails, because a substituted
fallback entry can collide with an *original* query that occurred earlier in
the list, and the cursor picks the next fallback in cyclic order whether or
not that entry is already in use (see
`fix_duplicate_queries_counterexample`).  Amended claim, proved here: after
the pass no two slides share a visual query, provided the number of
replacements performed is at most the fallback list's length (20) and no
slide's original query is itself one of the fixed fallback entries. -/
theorem fix_duplicate_queries_nodup (slides : List Slide)
    (hA : ∀ s ∈ slides, s.visual_query ∉ fallbacks)
    (hC : replacementsNeeded slides ≤ fallbacks.length) :
    ((fix_duplicate_queries slides).map Slide.visual_query).Nodup :=
  (fixDupAux_nodup_invariant slides [] 0 hA (by simp)
    (by simpa [replacementsNeeded] using hC)).1

/-- Counterexample to claim C1 as stated: slide 1's natural query equals the
first fallback entry; slide 3 repeats slide 2's query `"x"` and is rewritten
to that same first fallback entry, so two slides end up sharing a query even
though only one duplicate needed replacement (1 ≤ 20). -/
theorem fix_duplicate_queries_counterexample :
    replacementsNeeded
      [⟨"t1", [], "geometric compass drawing circles", "c"⟩,
       ⟨"t2", [], "x", "c"⟩, ⟨"t3", [], "x", "c"⟩] ≤ fallbacks.length ∧
    (fix_duplicate_queries
      [⟨"t1", [], "geometric compass drawing circles", "c"⟩,
       ⟨"t2", [], "x", "c"⟩, ⟨"t3", [], "x", "c"⟩]).map Slide.visual_query =
      ["geometric compass drawing circles", "x",
       "geometric compass drawing circles"] ∧
    ¬ ((fix_duplicate_queries
      [⟨"t1", [], "geometric compass drawing circles", "c"⟩,
       ⟨"t2", [], "x", "c"⟩, ⟨"t3", [], "x", "c"⟩]).map
        Slide.visual_query).Nodup := by decide

/-- Witness for `fix_duplicate_queries_nodup`: two slides with the same
natural query (the spec's own scenario); the second is rewritten to the first
fallback entry and all queries are distinct afterwards. -/
theorem fix_duplicate_queries_nodup_witness :
    (∀ s ∈ [(⟨"t1", [], "abstract background", "c"⟩ : Slide),
        ⟨"t2", [], "abstract background", "c"⟩],
      s.visual_query ∉ fallbacks) ∧
    replacementsNeeded [⟨"t1", [], "abstract background", "c"⟩,
      ⟨"t2", [], "abstract background", "c"⟩] ≤ fallbacks.length ∧
    ((fix_duplicate_queries [⟨"t1", [], "abstract background", "c"⟩,
        ⟨"t2", [], "abstract background", "c"⟩]).map
      Slide.visual_query).Nodup :=
  ⟨by decide, by decide,
    fix_duplicate_queries_nodup
      [⟨"t1", [], "abstract background", "c"⟩,
       ⟨"t2", [], "abstract background", "c"⟩] (by decide) (by decide)⟩
